import Mathlib

/-!
Shallow embedding of the code-quality heuristic engine of the
"coding buddy bot" editor add-on (source: `src/codeAnalyzer.ts`).

Lines are modelled as `List Char` (a JS string indexed by code unit);
full buffers and produced messages are Lean `String`s.  JS whitespace
(`trim`, the `\s` regex class) is modelled by `Char.isWhitespace`
(space, tab, CR, LF), which agrees with JS on the characters that can
occur in a buffer line after splitting on newlines.
-/

namespace CodeAnalyzer

/-- `sub.isPrefixOf l || ...` scan: JS `String.prototype.includes`. -/
def listContains (sub : List Char) : List Char → Bool
  | [] => sub.isEmpty
  | c :: cs => sub.isPrefixOf (c :: cs) || listContains sub cs

/-- JS `trimStart` / left part of `trim`. -/
def trimLeftChars (l : List Char) : List Char :=
  l.dropWhile Char.isWhitespace

/-- JS `String.prototype.trim`. -/
def trimChars (l : List Char) : List Char :=
  ((trimLeftChars l).reverse.dropWhile Char.isWhitespace).reverse

/-- JS `String.prototype.split(sep)` for a one-character separator. -/
def splitOnChar (sep : Char) : List Char → List (List Char)
  | [] => [[]]
  | c :: cs =>
    match splitOnChar sep cs with
    | [] => [[]]
    | l :: ls => if c = sep then [] :: l :: ls else (c :: l) :: ls

/-- `content.split("\n")` on a buffer. -/
def splitLines (content : String) : List (List Char) :=
  splitOnChar '\n' content.data

/-- JS `\w` word character: `[A-Za-z0-9_]`. -/
def isWordChar (c : Char) : Bool :=
  c.isAlphanum || c = '_'

/-- The token occurs at the head of `l` with `\b` word boundaries on both
sides; `prev` is the character just before `l` in the line, if any. -/
def wordBoundaryHere (tok : List Char) (prev : Option Char) (l : List Char) : Bool :=
  tok.isPrefixOf l
    && (match prev with | none => true | some p => !isWordChar p)
    && (match l.drop tok.length with | [] => true | d :: _ => !isWordChar d)

/-- Leftmost `\b(TODO|FIXME)\b` match in a line, returning the matched
token (JS `line.match(/\b(TODO|FIXME)\b/)?.[0]`). -/
def firstTodoFixmeAux (prev : Option Char) : List Char → Option String
  | [] => none
  | c :: cs =>
    if wordBoundaryHere "TODO".data prev (c :: cs) then some "TODO"
    else if wordBoundaryHere "FIXME".data prev (c :: cs) then some "FIXME"
    else firstTodoFixmeAux (some c) cs

def firstTodoFixme (l : List Char) : Option String :=
  firstTodoFixmeAux none l

/-- `/\s+$/.test(line)`: the line ends with a whitespace character. -/
def trailingWhitespace (l : List Char) : Bool :=
  match l.reverse with
  | [] => false
  | c :: _ => c.isWhitespace

/-- `/^\t+/.test(line)`. -/
def startsWithTab (l : List Char) : Bool :=
  match l with
  | '\t' :: _ => true
  | _ => false

/-- `/^(\t+ +| +\t+)/.test(line)`: tabs then a space, or spaces then a
tab, at the very beginning of the line. -/
def mixedIndent (l : List Char) : Bool :=
  (match l with
   | '\t' :: _ => (l.dropWhile (fun c => c = '\t')).head? = some ' '
   | _ => false)
  ||
  (match l with
   | ' ' :: _ => (l.dropWhile (fun c => c = ' ')).head? = some '\t'
   | _ => false)

/-- The `'` character (code point 39). -/
def singleQuote : Char := Char.ofNat 39

/-- The `"` character (code point 34). -/
def doubleQuote : Char := Char.ofNat 34

/-- All diagnostics are formatted as Line number, colon, description. -/
def mkMsg (n : Nat) (desc : String) : String :=
  "Line " ++ toString n ++ ": " ++ desc

/-- `hasMatchingExcept(lines, tryLineIndex)`: scan forward from the line
after the `try:` for a line whose trimmed form starts with `except`,
stopping at a line whose trimmed form starts with `def ` or `class `. -/
def hasMatchingExceptAux : List (List Char) → Bool
  | [] => false
  | l :: rest =>
    if "except".data.isPrefixOf (trimChars l) then true
    else if "def ".data.isPrefixOf (trimChars l) || "class ".data.isPrefixOf (trimChars l) then false
    else hasMatchingExceptAux rest

def hasMatchingExcept (lines : List (List Char)) (tryLineIndex : Nat) : Bool :=
  hasMatchingExceptAux (lines.drop (tryLineIndex + 1))

/-- The error messages `checkPythonSyntax` emits for physical line `i`
(0-based); `allLines` is the full newline split, needed by the
`try:`/`except` scan. -/
def lineErrors (allLines : List (List Char)) (i : Nat) (line : List Char) : List String :=
  let n := i + 1
  (if listContains "print(".data line && !listContains ")".data line then
    [mkMsg n "Missing closing parenthesis in print statement"] else [])
  ++ (if listContains "if ".data line && !listContains ":".data line
        && 0 < (trimChars line).length then
    [mkMsg n "Missing colon after if statement"] else [])
  ++ (if listContains "def ".data line && !listContains ":".data line
        && 0 < (trimChars line).length then
    [mkMsg n "Missing colon after function definition"] else [])
  ++ (if listContains "for ".data line && !listContains ":".data line
        && 0 < (trimChars line).length then
    [mkMsg n "Missing colon after for loop"] else [])
  ++ (if listContains "while ".data line && !listContains ":".data line
        && 0 < (trimChars line).length then
    [mkMsg n "Missing colon after while loop"] else [])
  ++ (if listContains "try:".data line && !hasMatchingExcept allLines i then
    [mkMsg n "try block without matching except"] else [])
  ++ (if line.count singleQuote % 2 != 0 || line.count doubleQuote % 2 != 0 then
    [mkMsg n "Unmatched quotes"] else [])
  ++ (if listContains "=".data line && listContains "+".data line
        && listContains "undefined".data line then
    [mkMsg n "Possible undefined variable usage"] else [])

/-- Fold a per-line classifier over the physical lines, 0-based index. -/
def overLinesAux (f : Nat → List Char → List String) (i : Nat) : List (List Char) → List String
  | [] => []
  | l :: rest => f i l ++ overLinesAux f (i + 1) rest

/-- `checkPythonSyntax` from the source (suffix added to the Lean name):
run the error predicates over every physical line, collecting messages in
line order. -/
def checkPythonSyntaxErrors (content : String) : List String :=
  let lines := splitLines content
  overLinesAux (lineErrors lines) 0 lines

/-- The warning messages `checkPythonWarnings` emits for physical line `i`. -/
def lineWarnings (i : Nat) (line : List Char) : List String :=
  let n := i + 1
  (if 120 < line.length then [mkMsg n "Line exceeds 120 characters"] else [])
  ++ (if trailingWhitespace line && 0 < (trimChars line).length then
    [mkMsg n "Trailing whitespace"] else [])
  ++ (match firstTodoFixme line with
      | some tok => [mkMsg n ("Contains " ++ tok ++ " note")]
      | none => [])
  ++ (if startsWithTab line then [mkMsg n "Uses tab indentation (prefer spaces)"] else [])
  ++ (if mixedIndent line then [mkMsg n "Mixed indentation (tabs and spaces)"] else [])

def checkPythonWarnings (content : String) : List String :=
  overLinesAux lineWarnings 0 (splitLines content)

/-- Per-line complexity contribution; the source adds each term with an
independent `if`, so one line can contribute several. -/
def lineComplexity (line : List Char) : Nat :=
  let trimmed := trimChars line
  (if "if ".data.isPrefixOf trimmed || "elif ".data.isPrefixOf trimmed then 1 else 0)
  + (if "for ".data.isPrefixOf trimmed || "while ".data.isPrefixOf trimmed then 2 else 0)
  + (if "try:".data.isPrefixOf trimmed || "except ".data.isPrefixOf trimmed then 1 else 0)
  + (if "def ".data.isPrefixOf trimmed || "class ".data.isPrefixOf trimmed then 1 else 0)
  + (if listContains " and ".data trimmed || listContains " or ".data trimmed then 1 else 0)
  + (if listContains "lambda ".data trimmed then 2 else 0)
  + (if 8 < line.length - (trimLeftChars line).length then 1 else 0)

def calculateComplexity (lines : List (List Char)) : Nat :=
  lines.foldl (fun complexity line => complexity + lineComplexity line) 0

inductive Quality where
  | good
  | improving
  | needs_work
deriving DecidableEq, Repr

def assessCodeQuality (lines : List (List Char)) (complexity errorCount : Nat) : Quality :=
  if errorCount == 0 && complexity < 10 && 0 < lines.length then .good
  else if errorCount == 0 && 0 < lines.length then .improving
  else .needs_work

structure CodeAnalysisResult where
  hasErrors : Bool
  errorCount : Nat
  hasWarnings : Bool
  warningCount : Nat
  lineCount : Nat
  complexity : Nat
  quality : Quality
  lastError : Option String
  lastWarning : Option String
  lastSuccess : Option String
deriving DecidableEq, Repr

def analyzePythonCode (content : String) : CodeAnalysisResult :=
  let lines := (splitLines content).filter (fun line => 0 < (trimChars line).length)
  let lineCount := lines.length
  let syntaxErrors := checkPythonSyntaxErrors content
  let hasErrors := decide (0 < syntaxErrors.length)
  let errorCount := syntaxErrors.length
  let warnings := checkPythonWarnings content
  let hasWarnings := decide (0 < warnings.length)
  let warningCount := warnings.length
  let complexity := calculateComplexity lines
  let quality := assessCodeQuality lines complexity errorCount
  let lastError := if hasErrors then syntaxErrors.head? else none
  let lastWarning := if hasWarnings then warnings.head? else none
  let lastSuccess := if !hasErrors && decide (0 < lineCount) then some "Code looks good!" else none
  { hasErrors := hasErrors, errorCount := errorCount,
    hasWarnings := hasWarnings, warningCount := warningCount,
    lineCount := lineCount, complexity := complexity, quality := quality,
    lastError := lastError, lastWarning := lastWarning, lastSuccess := lastSuccess }

/-- `path.basename` (POSIX) for the paths the analyzer sees: the last
`/`-separated segment. -/
def basename (fileName : String) : String :=
  String.mk ((splitOnChar '/' fileName.data).getLastD [])

/-- The emotion/reason pair `updateBotEmotion` computes for a result,
before the change-suppression check. -/
def selectEmotion (result : CodeAnalysisResult) (fileName : String) : String × String :=
  if result.hasErrors then
    ("frustrated",
      "Found " ++ toString result.errorCount ++ " syntax error(s) in " ++ basename fileName)
  else if result.hasWarnings then
    ("concerned", "Warnings detected in " ++ basename fileName)
  else if result.lineCount == 0 then
    ("happy", "Empty file - ready to start coding!")
  else
    ("happy", "Great code! " ++ toString result.lineCount ++ " lines written, no errors found")

/-- Analyzer state: the `analysisResults` cache (`Map<string, result>`,
modelled as a lookup function) and the tracked current file. -/
structure AnalyzerState where
  analysisResults : String → Option CodeAnalysisResult
  currentFile : Option String

def emptyState : AnalyzerState :=
  { analysisResults := fun _ => none, currentFile := none }

/-- `updateBotEmotion(result, fileName, previousResult)`.  `hasListener`
models whether `onEmotionChange` is set; `cache` is the `analysisResults`
map at call time (already holding the new result).  Returns the callback
invocation `(emotion, reason)` if one happens, else `none`. -/
def updateBotEmotion (hasListener : Bool) (cache : String → Option CodeAnalysisResult)
    (result : CodeAnalysisResult) (fileName : String)
    (previousResult : Option CodeAnalysisResult) : Option (String × String) :=
  if !hasListener then none
  else
    let er := selectEmotion result fileName
    let baseline := match previousResult with
      | some p => some p
      | none => cache fileName
    match baseline with
    | none => some er
    | some b =>
      if b.hasErrors != result.hasErrors
          || b.errorCount != result.errorCount
          || b.lineCount != result.lineCount then
        some er
      else
        none

/-- `analyzeFile`, generic in the analysis step so the `catch` branch can
be exercised: on a thrown analysis the error is logged only — the state
is untouched, no callback fires, nothing is re-raised. -/
def analyzeFileWith (analyze : String → Except String CodeAnalysisResult)
    (hasListener : Bool) (st : AnalyzerState) (fileName content : String) :
    AnalyzerState × Option (String × String) :=
  match analyze content with
  | .error _ => (st, none)
  | .ok result =>
    let previous := st.analysisResults fileName
    let cache := fun key => if key = fileName then some result else st.analysisResults key
    let event := updateBotEmotion hasListener cache result fileName previous
    ({ analysisResults := cache, currentFile := some fileName }, event)

/-- `analyzeFile` as shipped: `analyzePythonCode` is total, so the
analysis step always succeeds. -/
def analyzeFile (hasListener : Bool) (st : AnalyzerState) (fileName content : String) :
    AnalyzerState × Option (String × String) :=
  analyzeFileWith (fun c => .ok (analyzePythonCode c)) hasListener st fileName content

/-- Spec §4.2 step 6, written from the spec's words: quality as a pure
function of `(errorCount, complexity, lineCount)`. -/
def qualityOf (errorCount complexity lineCount : Nat) : Quality :=
  if errorCount == 0 && complexity < 10 && 0 < lineCount then .good
  else if errorCount == 0 && 0 < lineCount then .improving
  else .needs_work

/-- Spec §4.3 emotion/reason rule, written from the spec's words. -/
def specEmotionRule (r : CodeAnalysisResult) (d : String) : String × String :=
  if r.hasErrors then
    ("frustrated", "Found " ++ toString r.errorCount ++ " syntax error(s) in " ++ basename d)
  else if r.hasWarnings then
    ("concerned", "Warnings detected in " ++ basename d)
  else if r.lineCount == 0 then
    ("happy", "Empty file - ready to start coding!")
  else
    ("happy", "Great code! " ++ toString r.lineCount ++ " lines written, no errors found")

theorem data_append (a b : String) : (a ++ b).data = a.data ++ b.data := rfl

theorem string_data_inj {a b : String} (h : a.data = b.data) : a = b :=
  congrArg String.mk h

theorem mkMsg_inj {n : Nat} {a b : String} (h : mkMsg n a = mkMsg n b) : a = b := by
  have hd := congrArg String.data h
  simp only [mkMsg, data_append, List.append_assoc] at hd
  exact string_data_inj
    (List.append_cancel_left (List.append_cancel_left (List.append_cancel_left hd)))

theorem mem_if_singleton {α : Type} (x m : α) (c : Prop) [Decidable c] :
    (x ∈ if c then [m] else []) ↔ (c ∧ x = m) := by
  by_cases h : c <;> simp [h]

theorem foldl_add_eq_sum (f : List Char → Nat) (ls : List (List Char)) (a : Nat) :
    ls.foldl (fun acc l => acc + f l) a = a + (ls.map f).sum := by
  induction ls generalizing a with
  | nil => simp
  | cons l rest ih => simp [ih, Nat.add_assoc]

theorem calculateComplexity_eq_sum (lines : List (List Char)) :
    calculateComplexity lines = (lines.map lineComplexity).sum := by
  simpa using foldl_add_eq_sum lineComplexity lines 0

theorem if_decide_head_isSome (l : List String) :
    (if decide (0 < l.length) then l.head? else none).isSome = decide (0 < l.length) := by
  cases l <;> simp

theorem if_some_isSome (c : Bool) (s : String) :
    (if c = true then some s else none).isSome = c := by
  cases c <;> simp

theorem updateBotEmotion_shape (hl : Bool) (cache : String → Option CodeAnalysisResult)
    (r : CodeAnalysisResult) (f : String) (prev : Option CodeAnalysisResult) :
    updateBotEmotion hl cache r f prev = none ∨
      updateBotEmotion hl cache r f prev = some (selectEmotion r f) := by
  unfold updateBotEmotion
  split
  · exact Or.inl rfl
  · dsimp only
    cases prev with
    | some p =>
      dsimp only
      split
      · exact Or.inr rfl
      · exact Or.inl rfl
    | none =>
      dsimp only
      split
      · exact Or.inr rfl
      · split
        · exact Or.inr rfl
        · exact Or.inl rfl

/-- C2: for every buffer, the `quality` field is the pure function
`qualityOf` of `(errorCount, complexity, lineCount)` evaluated in
precedence order (`good` / `improving` / `needs_work`), and the four
sample triples classify as the claim states. -/
theorem C2_quality_pure_function :
    (∀ content : String,
      (analyzePythonCode content).quality =
        qualityOf (analyzePythonCode content).errorCount
          (analyzePythonCode content).complexity (analyzePythonCode content).lineCount)
    ∧ qualityOf 0 3 5 = Quality.good
    ∧ qualityOf 0 12 5 = Quality.improving
    ∧ qualityOf 1 0 5 = Quality.needs_work
    ∧ qualityOf 0 0 0 = Quality.needs_work :=
  ⟨fun _ => rfl, by decide, by decide, by decide, by decide⟩

/-- C3: for every input buffer the result satisfies `hasErrors =
(errorCount > 0)`, `hasWarnings = (warningCount > 0)`, `lastError` is
present iff `hasErrors` and equals the first error message in line
order, `lastWarning` likewise for warnings, and `lastSuccess` is
present iff `hasErrors` is false and `lineCount > 0`. -/
theorem C3_result_invariants :
    ∀ content : String,
      (analyzePythonCode content).hasErrors = decide (0 < (analyzePythonCode content).errorCount)
      ∧ (analyzePythonCode content).hasWarnings =
          decide (0 < (analyzePythonCode content).warningCount)
      ∧ (analyzePythonCode content).lastError.isSome = (analyzePythonCode content).hasErrors
      ∧ (analyzePythonCode content).lastError =
          (if (analyzePythonCode content).hasErrors then (checkPythonSyntaxErrors content).head?
           else none)
      ∧ (analyzePythonCode content).lastWarning.isSome = (analyzePythonCode content).hasWarnings
      ∧ (analyzePythonCode content).lastWarning =
          (if (analyzePythonCode content).hasWarnings then (checkPythonWarnings content).head?
           else none)
      ∧ (analyzePythonCode content).lastSuccess.isSome =
          (!(analyzePythonCode content).hasErrors
            && decide (0 < (analyzePythonCode content).lineCount)) := by
  intro content
  refine ⟨rfl, rfl, ?_, rfl, ?_, rfl, ?_⟩
  · exact if_decide_head_isSome (checkPythonSyntaxErrors content)
  · exact if_decide_head_isSome (checkPythonWarnings content)
  · exact if_some_isSome _ _

/-- C4: for every buffer, `complexity` is the sum over the non-blank
lines of the independent per-line contributions `lineComplexity`
(+1 `if `/`elif `, +2 `for `/`while `, +1 `try:`/`except `, +1
`def `/`class `, +1 ` and `/` or `, +2 `lambda `, +1 indentation over 8
columns), with several contributions on one line all counting — the
sample line collects 2 + 1 + 2 + 1 = 6. -/
theorem C4_complexity_is_sum :
    (∀ content : String,
      (analyzePythonCode content).complexity =
        (((splitLines content).filter (fun l => 0 < (trimChars l).length)).map
          lineComplexity).sum)
    ∧ lineComplexity "         for i in items and extras: f = lambda x: x".data = 6
    ∧ lineComplexity "if a and b:".data = 2
    ∧ lineComplexity "try:".data = 1 :=
  ⟨fun _ => calculateComplexity_eq_sum _, by decide, by decide, by decide⟩

/-- C6: `lineCount` counts exactly the lines of the newline split whose
trimmed form is non-empty; a buffer of only newlines yields 0, and the
empty string yields the all-zero `needs_work` result with no
`lastSuccess`. -/
theorem C6_lineCount_nonblank :
    (∀ content : String,
      (analyzePythonCode content).lineCount =
        ((splitLines content).filter (fun l => decide (trimChars l ≠ []))).length)
    ∧ (analyzePythonCode "\n\n\n").lineCount = 0
    ∧ analyzePythonCode "" =
        { hasErrors := false, errorCount := 0, hasWarnings := false, warningCount := 0,
          lineCount := 0, complexity := 0, quality := Quality.needs_work,
          lastError := none, lastWarning := none, lastSuccess := none } := by
  refine ⟨fun content => ?_, by decide, by decide⟩
  exact congrArg List.length
    (List.filter_congr (fun a _ => by cases trimChars a <;> simp))

/-- C7: the emotion/reason computed for a result follows the spec's
precedence (`frustrated` on errors, else `concerned` on warnings, else
`happy` with the empty-file reason when `lineCount = 0`, else `happy`
with the line-count reason), and every listener invocation carries
exactly that pair. -/
theorem C7_emotion_precedence :
    (∀ (r : CodeAnalysisResult) (d : String), selectEmotion r d = specEmotionRule r d)
    ∧ (∀ (hl : Bool) (cache : String → Option CodeAnalysisResult) (r : CodeAnalysisResult)
        (f : String) (prev : Option CodeAnalysisResult),
        updateBotEmotion hl cache r f prev = none ∨
          updateBotEmotion hl cache r f prev = some (specEmotionRule r f)) :=
  ⟨fun _ _ => rfl, fun hl cache r f prev => updateBotEmotion_shape hl cache r f prev⟩

/-- C9: analysis is deterministic — analyzing the same content twice in
a row for the same document identity stores the identical
`analyzePythonCode content` value both times. -/
theorem C9_deterministic :
    ∀ (hl : Bool) (st : AnalyzerState) (f content : String),
      (analyzeFile hl st f content).1.analysisResults f = some (analyzePythonCode content)
      ∧ (analyzeFile hl (analyzeFile hl st f content).1 f content).1.analysisResults f =
          some (analyzePythonCode content) := by
  intro hl st f content
  constructor <;> simp [analyzeFile, analyzeFileWith]

/-- C10: whenever the emotion callback fires, the emotion label is one
of exactly `frustrated`, `concerned`, `happy`. -/
theorem C10_emotion_label_range :
    ∀ (hl : Bool) (cache : String → Option CodeAnalysisResult) (r : CodeAnalysisResult)
      (f : String) (prev : Option CodeAnalysisResult),
      (updateBotEmotion hl cache r f prev).elim True
        (fun ev => ev.1 = "frustrated" ∨ ev.1 = "concerned" ∨ ev.1 = "happy") := by
  intro hl cache r f prev
  rcases updateBotEmotion_shape hl cache r f prev with h | h
  · simp [h]
  · simp only [h, Option.elim]
    unfold selectEmotion
    split
    · exact Or.inl rfl
    · split
      · exact Or.inr (Or.inl rfl)
      · split
        · exact Or.inr (Or.inr rfl)
        · exact Or.inr (Or.inr rfl)

/-- C8: if the analysis step fails for a document, the whole event is
absorbed by the `catch`: the analyzer state (cache and tracked file) is
exactly as before, no emotion callback fires, and nothing is re-raised
(the step function returns normally). -/
theorem C8_failure_atomicity :
    ∀ (analyze : String → Except String CodeAnalysisResult) (hl : Bool)
      (st : AnalyzerState) (fileName content msg : String),
      analyze content = Except.error msg →
      analyzeFileWith analyze hl st fileName content = (st, none) := by
  intro analyze hl st fileName content msg h
  simp [analyzeFileWith, h]

/-- C8 witness: a concrete failing analysis step on a concrete state. -/
theorem C8_failure_atomicity_witness :
    analyzeFileWith (fun _ => Except.error "fault") true emptyState "test.py" "x = 1" =
      (emptyState, none) :=
  C8_failure_atomicity (fun _ => Except.error "fault") true emptyState "test.py" "x = 1" "fault"
    rfl

/-- C1: contrary to the claim, on the very first analysis of a document
(no prior cache entry) the listener is never invoked: the cache is
updated before `updateBotEmotion` runs, and the `??` fallback makes the
baseline the freshly stored result itself, so the comparison is a
self-comparison and the no-baseline branch is unreachable. -/
theorem C1_first_analysis_never_notifies :
    ∀ (st : AnalyzerState) (fileName content : String),
      st.analysisResults fileName = none →
      (analyzeFile true st fileName content).2 = none := by
  intro st fileName content h
  simp [analyzeFile, analyzeFileWith, updateBotEmotion, h]

/-- C1 witness: a fresh analyzer with a registered listener emits no
event on the first analysis of `test.py`. -/
theorem C1_first_analysis_never_notifies_witness :
    (analyzeFile true emptyState "test.py" "x = 1").2 = none :=
  C1_first_analysis_never_notifies emptyState "test.py" "x = 1" rfl

/-- C5 counterexample: the buffer `"atry: 1"` is reported as a try block
without matching except although its trimmed line neither equals nor
starts with `try:` — the source tests `line.includes("try:")`, a
substring match, not a trimmed-prefix match. -/
theorem C5_counterexample :
    checkPythonSyntaxErrors "atry: 1" = ["Line 1: try block without matching except"]
    ∧ List.isPrefixOf "try:".data (trimChars "atry: 1".data) = false :=
  ⟨by decide, by decide⟩

/-- C5 (amended): the try-block error is reported for a line exactly
when the line contains the substring `try:` and no line whose trimmed
form starts with `except` occurs in the forward scan before a line
whose trimmed form starts with `def ` or `class ` (or end of buffer);
the buffer `"try:\n    pass"` yields that error at line 1. -/
theorem C5_try_error_condition :
    (∀ (allLines : List (List Char)) (i : Nat) (line : List Char),
      mkMsg (i + 1) "try block without matching except" ∈ lineErrors allLines i line
      ↔ (listContains "try:".data line = true ∧ hasMatchingExcept allLines i = false))
    ∧ checkPythonSyntaxErrors "try:\n    pass" =
        ["Line 1: try block without matching except"] := by
  refine ⟨fun allLines i line => ?_, by decide⟩
  have h1 : mkMsg (i + 1) "try block without matching except" ≠
      mkMsg (i + 1) "Missing closing parenthesis in print statement" :=
    fun h => absurd (mkMsg_inj h) (by decide)
  have h2 : mkMsg (i + 1) "try block without matching except" ≠
      mkMsg (i + 1) "Missing colon after if statement" :=
    fun h => absurd (mkMsg_inj h) (by decide)
  have h3 : mkMsg (i + 1) "try block without matching except" ≠
      mkMsg (i + 1) "Missing colon after function definition" :=
    fun h => absurd (mkMsg_inj h) (by decide)
  have h4 : mkMsg (i + 1) "try block without matching except" ≠
      mkMsg (i + 1) "Missing colon after for loop" :=
    fun h => absurd (mkMsg_inj h) (by decide)
  have h5 : mkMsg (i + 1) "try block without matching except" ≠
      mkMsg (i + 1) "Missing colon after while loop" :=
    fun h => absurd (mkMsg_inj h) (by decide)
  have h6 : mkMsg (i + 1) "try block without matching except" ≠
      mkMsg (i + 1) "Unmatched quotes" :=
    fun h => absurd (mkMsg_inj h) (by decide)
  have h7 : mkMsg (i + 1) "try block without matching except" ≠
      mkMsg (i + 1) "Possible undefined variable usage" :=
    fun h => absurd (mkMsg_inj h) (by decide)
  simp [lineErrors, mem_if_singleton, h1, h2, h3, h4, h5, h6, h7]

end CodeAnalyzer
